import Mathlib

set_option maxRecDepth 8000

/-!
Verification development for the WMS-platform dashboard provisioning scripts:
the Superset resource reconciliation orchestrator
(`deployments/data-mesh/superset/setup-dashboards.py`) and the Grafana RED
metrics dashboard creator (`deployments/o11y/red-metrics/create-dashboards.py`).
The Python scripts are embedded shallowly: pure helpers become Lean functions,
the HTTP backend becomes an explicit state (for the Superset orchestration) or
explicit response values (for single-call analyses), and Python `None`/`0`
truthiness is modelled explicitly.
-/

namespace WmsProvision

/-! ## Generic string machinery

Python string primitives used by the scripts: `str.lower`, the `in` substring
test, and `str.replace` (leftmost, non-overlapping). Characters are handled as
`List Char`; all names in the scripts are ASCII. -/

/-- ASCII lowercasing of one character, the relevant fragment of Python
`str.lower` for the names appearing in the scripts. -/
def lowerChar (c : Char) : Char :=
  if 'A' ≤ c ∧ c ≤ 'Z' then Char.ofNat (c.toNat + 32) else c

/-- Lowercase a string into its character list (Python `s.lower()`). -/
def lowerS (s : String) : List Char := s.data.map lowerChar

/-- Check that `p` is an initial segment of `s`; on success return the rest of
`s` after `p`. -/
def takesOff : List Char → List Char → Option (List Char)
  | [], rest => some rest
  | _ :: _, [] => none
  | p :: ps, c :: cs => if p = c then takesOff ps cs else none

/-- Substring test (Python `pat in s`). -/
def occursIn : List Char → List Char → Bool
  | [], pat => (takesOff pat []).isSome
  | c :: cs, pat => (takesOff pat (c :: cs)).isSome || occursIn cs pat

theorem takesOff_length : ∀ (p s r : List Char), takesOff p s = some r →
    s.length = p.length + r.length := by
  intro p
  induction p with
  | nil =>
    intro s r h
    rw [takesOff] at h
    cases h
    simp
  | cons a as ih =>
    intro s r h
    cases s with
    | nil => exact absurd h (by rw [takesOff]; simp)
    | cons c cs =>
      rw [takesOff] at h
      by_cases hac : a = c
      · rw [if_pos hac] at h
        have h2 := ih cs r h
        simp only [List.length_cons, h2]
        omega
      · rw [if_neg hac] at h
        exact absurd h (by simp)

theorem takesOff_self_append (p r : List Char) : takesOff p (p ++ r) = some r := by
  induction p with
  | nil => simp [takesOff]
  | cons a as ih => rw [List.cons_append, takesOff, if_pos rfl, ih]

theorem takesOff_cons_self (c : Char) (pt r : List Char) :
    takesOff (c :: pt) (c :: (pt ++ r)) = some r := by
  rw [takesOff, if_pos rfl, takesOff_self_append]

theorem takesOff_cons_ne (c a : Char) (pt s : List Char) (h : ¬ c = a) :
    takesOff (c :: pt) (a :: s) = none := by
  rw [takesOff, if_neg h]

/-- Fuel-driven worker for `replaceAll`; the fuel is an upper bound on the
length of the string still to scan, making the recursion structural. -/
def replaceAllAux (pat rep : List Char) : Nat → List Char → List Char
  | _, [] => []
  | 0, s => s
  | fuel + 1, c :: cs =>
    match takesOff pat (c :: cs) with
    | some rest => rep ++ replaceAllAux pat rep fuel rest
    | none => c :: replaceAllAux pat rep fuel cs

/-- Leftmost non-overlapping replacement of `pat` by `rep` inside `s`
(Python `s.replace(pat, rep)` for a non-empty `pat`; the scripts never use an
empty pattern, which is left as the identity here). -/
def replaceAll (s pat rep : List Char) : List Char :=
  if pat.isEmpty then s else replaceAllAux pat rep s.length s

/-- Python `str.replace` lifted to `String`. -/
def replaceAllStr (s pat rep : String) : String :=
  ⟨replaceAll s.data pat.data rep.data⟩

theorem replaceAllAux_fuel (p : Char) (pt rep : List Char) :
    ∀ f1 f2 s, s.length ≤ f1 → s.length ≤ f2 →
      replaceAllAux (p :: pt) rep f1 s = replaceAllAux (p :: pt) rep f2 s := by
  intro f1
  induction f1 with
  | zero =>
    intro f2 s h1 _
    have hs : s = [] := List.eq_nil_of_length_eq_zero (Nat.le_zero.mp h1)
    subst hs
    cases f2 <;> rfl
  | succ f ih =>
    intro f2 s h1 h2
    cases s with
    | nil => cases f2 <;> rfl
    | cons c cs =>
      have hlen : cs.length + 1 ≤ f2 := by simpa using h2
      obtain ⟨g, rfl⟩ : ∃ g, f2 = g + 1 := ⟨f2 - 1, by omega⟩
      cases hto : takesOff (p :: pt) (c :: cs) with
      | some rest =>
        have hl := takesOff_length (p :: pt) (c :: cs) rest hto
        simp only [List.length_cons] at hl h1 hlen
        have hr1 : rest.length ≤ f := by omega
        have hr2 : rest.length ≤ g := by omega
        rw [replaceAllAux, replaceAllAux, hto]
        dsimp only
        rw [ih g rest hr1 hr2]
      | none =>
        simp only [List.length_cons] at h1 hlen
        rw [replaceAllAux, replaceAllAux, hto]
        dsimp only
        rw [ih g cs (by omega) (by omega)]

theorem replaceAll_nil (pat rep : List Char) : replaceAll [] pat rep = [] := by
  cases pat with
  | nil => rfl
  | cons p pt => rfl

theorem replaceAll_cons_found (p : Char) (pt rep : List Char) (c : Char)
    (cs rest : List Char) (hto : takesOff (p :: pt) (c :: cs) = some rest) :
    replaceAll (c :: cs) (p :: pt) rep = rep ++ replaceAll rest (p :: pt) rep := by
  show replaceAllAux (p :: pt) rep (c :: cs).length (c :: cs) = _
  rw [List.length_cons, replaceAllAux, hto]
  dsimp only
  have hl := takesOff_length (p :: pt) (c :: cs) rest hto
  simp only [List.length_cons] at hl
  have hr : rest.length ≤ cs.length := by omega
  rw [replaceAllAux_fuel p pt rep cs.length rest.length rest hr (Nat.le_refl _)]
  rfl

theorem replaceAll_cons_skip (p : Char) (pt rep : List Char) (c : Char)
    (cs : List Char) (hto : takesOff (p :: pt) (c :: cs) = none) :
    replaceAll (c :: cs) (p :: pt) rep = c :: replaceAll cs (p :: pt) rep := by
  show replaceAllAux (p :: pt) rep (c :: cs).length (c :: cs) = _
  rw [List.length_cons, replaceAllAux, hto]
  dsimp only
  rfl

theorem replaceAll_of_not_mem (s : List Char) (c : Char) (pt rep : List Char)
    (h : c ∉ s) : replaceAll s (c :: pt) rep = s := by
  induction s with
  | nil => exact replaceAll_nil _ _
  | cons a as ih =>
    have hca : ¬ c = a := fun he => h (he ▸ List.mem_cons_self a as)
    have has : c ∉ as := fun hm => h (List.mem_cons_of_mem a hm)
    rw [replaceAll_cons_skip c pt rep a as (takesOff_cons_ne c a pt as hca)]
    rw [ih has]

theorem replaceAll_seg (s₀ : List Char) (c : Char) (pt rep r : List Char)
    (h : c ∉ s₀) :
    replaceAll (s₀ ++ (c :: pt) ++ r) (c :: pt) rep =
      s₀ ++ rep ++ replaceAll r (c :: pt) rep := by
  induction s₀ with
  | nil =>
    rw [List.nil_append, List.cons_append]
    rw [replaceAll_cons_found c pt rep c (pt ++ r) r (takesOff_cons_self c pt r)]
    rw [List.nil_append]
  | cons a as ih =>
    have hca : ¬ c = a := fun he => h (he ▸ List.mem_cons_self a as)
    have has : c ∉ as := fun hm => h (List.mem_cons_of_mem a hm)
    rw [List.cons_append, List.cons_append]
    rw [replaceAll_cons_skip c pt rep a ((as ++ (c :: pt)) ++ r)
      (takesOff_cons_ne c a pt _ hca)]
    rw [ih has]
    simp

/-- Interleave a separator between segments (the shape of a string containing
the separator exactly at designated spots). -/
def interpose (sep : List Char) : List (List Char) → List Char
  | [] => []
  | [a] => a
  | a :: b :: rest => a ++ sep ++ interpose sep (b :: rest)

theorem replaceAll_interpose (c : Char) (pt rep : List Char)
    (ss : List (List Char)) (h : ∀ l ∈ ss, c ∉ l) :
    replaceAll (interpose (c :: pt) ss) (c :: pt) rep = interpose rep ss := by
  induction ss with
  | nil => rw [interpose, interpose, replaceAll_nil]
  | cons a rest ih =>
    cases rest with
    | nil =>
      rw [interpose, interpose]
      exact replaceAll_of_not_mem a c pt rep (h a (List.mem_cons_self a []))
    | cons b rest2 =>
      rw [interpose, interpose]
      have ha : c ∉ a := h a (List.mem_cons_self a (b :: rest2))
      have hrest : ∀ l ∈ b :: rest2, c ∉ l := fun l hl =>
        h l (List.mem_cons_of_mem a hl)
      rw [replaceAll_seg a c pt rep (interpose (c :: pt) (b :: rest2)) ha]
      rw [ih hrest]

/-! ## Superset backend model

State of the dashboard backend as the orchestrator observes it. Each listing
endpoint returns the stored records of its kind; the model records, for each
resource, the backend-assigned id together with exactly the fields the script
ever reads back: `database_name` for database connections, `table_name` for
datasets, `slice_name` for charts, and `slug`/`dashboard_title` for
dashboards. Creation payload fields that no control flow or matching logic
ever consults (visualization params, json_metadata, capability flags, the SQL
query text) are carried opaquely or elided; the SQL texts in particular are
fixed strings passed through unmodified, represented here by short markers. -/

/-- Truthiness of a Python value that is either `None` or an `int`
(`if x:` / `if not x:`): `None` and `0` are falsy. -/
def truthyOpt : Option Nat → Bool
  | none => false
  | some n => n != 0

/-- Truthiness of a Python value that is either `None` or a `str`:
`None` and the empty string are falsy. -/
def truthyStr : Option String → Bool
  | none => false
  | some s => !s.isEmpty

/-- One listed dashboard: id, `slug` and `dashboard_title`. -/
structure DashEntry where
  id : Nat
  slug : String
  title : String
deriving DecidableEq

/-- The `meta` dict of one chart leaf in the `position_json` layout
(setup-dashboards.py line 340). -/
structure LeafMeta where
  width : Nat
  height : Nat
  chartId : Nat
deriving DecidableEq

/-- The `position_json` layout dict built by `create_dashboard`
(setup-dashboards.py lines 316-341): the fixed ROOT/GRID/HEADER/ROW-1
skeleton plus one `CHART-<id>` leaf entry per truthy chart id. The leaf
entries form a Python dict, modelled as an insertion-ordered association
list with overwrite-on-repeated-key semantics. -/
structure PositionJson where
  rootChildren : List String
  gridChildren : List String
  headerText : String
  rowChildren : List String
  leaves : List (String × LeafMeta)
deriving DecidableEq

/-- Dataset creation payload (`POST /api/v1/dataset/`), covering both the
physical shape of `create_dataset` (lines 226-231) and the virtual shape of
`create_virtual_dataset` (lines 181-187 and 198-203). -/
structure DatasetPayload where
  database : Nat
  table_name : String
  sql : Option String
  schema : Option String
  description : Option String
deriving DecidableEq

/-- A creation POST issued against the backend, with the payload fields the
analysis tracks. -/
inductive Payload
  | db (database_name engine sqlalchemy_uri : String)
  | dataset (p : DatasetPayload)
  | chart (slice_name viz_type : String) (datasource_id : Nat) (description : String)
  | dash (dashboard_title slug : String) (position : PositionJson)
deriving DecidableEq

/-- Whether a creation POST targets the database-connection endpoint. -/
def Payload.isDb : Payload → Bool
  | .db _ _ _ => true
  | _ => false

/-- Observable backend state plus the log of creation POSTs issued so far.
Fresh ids are assigned from `nextId`; real backends assign positive
auto-increment ids, hence runs start from states with positive ids. -/
structure BState where
  dbs : List (Nat × String)
  dsets : List (Nat × String)
  charts : List (Nat × String)
  dashes : List DashEntry
  nextId : Nat
  posts : List Payload
deriving DecidableEq

/-- Backend acceptance behaviour: for the n-th creation POST of the run
(counted through `posts.length`), `true` means 2xx with a fresh id, `false`
means rejection. -/
def Oracle := Nat → Bool

/-- Oracle of a backend that accepts every creation POST. -/
def allAccept : Oracle := fun _ => true

/-- Oracle of a backend that rejects every creation POST. -/
def rejectAll : Oracle := fun _ => false

/-- Exact first-match lookup by name, the loop
`for x in listing: if x.get(field) == name: return x["id"]` shared verbatim by
`create_virtual_dataset` (lines 175-178, field `table_name`),
`create_dataset` (lines 221-224), `create_sql_dataset` (lines 250-253) and
`create_chart` (lines 279-282, field `slice_name`). -/
def findByName : List (Nat × String) → String → Option Nat
  | [], _ => none
  | (i, n) :: rest, name => if n = name then some i else findByName rest name

/-- Dashboard existence loop of `create_dashboard` (lines 310-313): first
entry whose `slug` equals the requested slug or whose `dashboard_title`
equals the requested name. -/
def findDash : List DashEntry → String → String → Option Nat
  | [], _, _ => none
  | d :: rest, slug, name =>
    if d.slug = slug ∨ d.title = name then some d.id else findDash rest slug name

/-- Database-connection existence loop of `create_database_connection`
(lines 131-134): first database whose lowercased `database_name` contains
"trino" or "wms" as a substring. -/
def findDbMatch : List (Nat × String) → Option Nat
  | [] => none
  | (i, n) :: rest =>
    if occursIn (lowerS n) "trino".data || occursIn (lowerS n) "wms".data
    then some i else findDbMatch rest

/-- Layout key of a chart (line 333: `f"CHART-{chart_id}"`). -/
def chartKey (cid : Nat) : String := "CHART-" ++ toString cid

/-- The truthy chart ids of the input, in order: Python `if chart_id:` keeps
exactly the non-`None`, non-zero entries (line 332). -/
def truthyIds : List (Option Nat) → List Nat
  | [] => []
  | none :: rest => truthyIds rest
  | some m :: rest => if m = 0 then truthyIds rest else m :: truthyIds rest

/-- Python dict assignment `d[k] = v`: overwrite the value if the key is
present (keeping its position), else append the binding. -/
def dictInsert : List (String × LeafMeta) → String → LeafMeta → List (String × LeafMeta)
  | [], k, v => [(k, v)]
  | (k0, v0) :: rest, k, v =>
    if k0 = k then (k0, v) :: rest else (k0, v0) :: dictInsert rest k v

/-- The fixed skeleton of `position_json` (lines 316-328). -/
def initPosition (name : String) : PositionJson :=
  { rootChildren := ["GRID_ID"]
    gridChildren := ["ROW-1"]
    headerText := name
    rowChildren := []
    leaves := [] }

/-- One iteration of the chart-placement loop (lines 331-341): a truthy chart
id appends its key to ROW-1's children and assigns the leaf entry; `None` and
`0` are skipped. -/
def addChart (pj : PositionJson) (oc : Option Nat) : PositionJson :=
  match oc with
  | none => pj
  | some cid =>
    if cid = 0 then pj
    else
      { pj with
        rowChildren := pj.rowChildren ++ [chartKey cid]
        leaves := dictInsert pj.leaves (chartKey cid) ⟨4, 50, cid⟩ }

/-- Layout synthesis of `create_dashboard` (lines 316-341). -/
def buildPositionJson (name : String) (chartIds : List (Option Nat)) : PositionJson :=
  chartIds.foldl addChart (initPosition name)

/-- Upsert of the Trino database connection, `create_database_connection`
(lines 123-164): list `/api/v1/database/`, reuse the first database whose
lowercased name contains "trino" or "wms"; otherwise POST a creation and, on
rejection, fall back to the first listed database if any, else `None`. -/
def createDatabaseConnectionS (s : BState) (o : Oracle) : Option Nat × BState :=
  match findDbMatch s.dbs with
  | some id => (some id, s)
  | none =>
    let p := Payload.db "Trino - WMS Data Mesh" "trino"
      "trino://trino@trino.data-mesh.svc.cluster.local:8080/iceberg"
    if o s.posts.length then
      (some s.nextId,
        { s with
          dbs := s.dbs ++ [(s.nextId, "Trino - WMS Data Mesh")]
          nextId := s.nextId + 1
          posts := s.posts ++ [p] })
    else
      match s.dbs with
      | [] => (none, { s with posts := s.posts ++ [p] })
      | d :: _ => (some d.1, { s with posts := s.posts ++ [p] })

/-- Primary payload of `create_virtual_dataset` (lines 181-187): `schema` is
included only when the argument is truthy. -/
def vdPrimary (db : Nat) (name sql : String) (schema : Option String) : DatasetPayload :=
  { database := db
    table_name := name
    sql := some sql
    schema := if truthyStr schema then schema else none
    description := none }

/-- Upsert of a virtual SQL dataset, `create_virtual_dataset` (lines
167-210): exact-name check, then a creation POST; on rejection one retry
whose payload forces `schema` to the supplied schema or to "gold" when the
supplied one is not truthy (line 202). -/
def createVirtualDatasetS (s : BState) (o : Oracle) (db : Nat)
    (name sql : String) (schema : Option String) : Option Nat × BState :=
  match findByName s.dsets name with
  | some id => (some id, s)
  | none =>
    let p1 := Payload.dataset (vdPrimary db name sql schema)
    if o s.posts.length then
      (some s.nextId,
        { s with
          dsets := s.dsets ++ [(s.nextId, name)]
          nextId := s.nextId + 1
          posts := s.posts ++ [p1] })
    else
      let s1 : BState := { s with posts := s.posts ++ [p1] }
      let p2 := Payload.dataset
        { vdPrimary db name sql schema with
          schema := some (if truthyStr schema then schema.getD "" else "gold") }
      if o s1.posts.length then
        (some s1.nextId,
          { s1 with
            dsets := s1.dsets ++ [(s1.nextId, name)]
            nextId := s1.nextId + 1
            posts := s1.posts ++ [p2] })
      else (none, { s1 with posts := s1.posts ++ [p2] })

/-- Upsert of a physical dataset, `create_dataset` (lines 213-239):
exact-name check, one creation POST, and on rejection return `None` with no
retry (the caller may then try a differently named virtual dataset). -/
def createDatasetS (s : BState) (o : Oracle) (db : Nat)
    (schema table_name description : String) : Option Nat × BState :=
  match findByName s.dsets table_name with
  | some id => (some id, s)
  | none =>
    let p := Payload.dataset
      { database := db
        table_name := table_name
        sql := none
        schema := some schema
        description := some description }
    if o s.posts.length then
      (some s.nextId,
        { s with
          dsets := s.dsets ++ [(s.nextId, table_name)]
          nextId := s.nextId + 1
          posts := s.posts ++ [p] })
    else (none, { s with posts := s.posts ++ [p] })

/-- Upsert of a chart, `create_chart` (lines 271-299): exact-name check on
`slice_name`, one creation POST, `None` on rejection. -/
def createChartS (s : BState) (o : Oracle)
    (slice_name viz_type : String) (datasource_id : Nat) (description : String) :
    Option Nat × BState :=
  match findByName s.charts slice_name with
  | some id => (some id, s)
  | none =>
    let p := Payload.chart slice_name viz_type datasource_id description
    if o s.posts.length then
      (some s.nextId,
        { s with
          charts := s.charts ++ [(s.nextId, slice_name)]
          nextId := s.nextId + 1
          posts := s.posts ++ [p] })
    else (none, { s with posts := s.posts ++ [p] })

/-- Upsert of a dashboard, `create_dashboard` (lines 302-363): slug-or-title
check, layout synthesis, one creation POST, `None` on rejection. -/
def createDashboardS (s : BState) (o : Oracle)
    (name slug : String) (chartIds : List (Option Nat)) : Option Nat × BState :=
  match findDash s.dashes slug name with
  | some id => (some id, s)
  | none =>
    let p := Payload.dash name slug (buildPositionJson name chartIds)
    if o s.posts.length then
      (some s.nextId,
        { s with
          dashes := s.dashes ++ [⟨s.nextId, slug, name⟩]
          nextId := s.nextId + 1
          posts := s.posts ++ [p] })
    else (none, { s with posts := s.posts ++ [p] })

/-! ## The ten setup routines and `main`

Each `setup_*` function of setup-dashboards.py is a straight-line chain of
upserts with literal names; the SQL texts passed to virtual datasets are
opaque fixed strings, represented by short markers. Python's
`if not dataset_id:` tests are the `truthyOpt` checks. Chart upsert results
are collected into a list (possibly containing `None`) that is handed to
`create_dashboard` unchanged. -/

/-- setup_orders_requirements_chart (lines 366-434). -/
def setupOrdersRequirementsChartS (s : BState) (o : Oracle) (db : Nat) :
    Option Nat × BState :=
  let r1 := createDatasetS s o db "gold" "orders_by_requirements_daily"
    "Daily aggregation of orders by special requirements"
  let r2 := if truthyOpt r1.1 then r1
    else createVirtualDatasetS r1.2 o db "vw_orders_by_requirements"
      "sql_orders_by_requirements" (some "gold")
  if truthyOpt r2.1 then
    createChartS r2.2 o "Orders by Special Requirements" "dist_bar" (r2.1.getD 0)
      "Bar chart showing distribution of orders by special requirements"
  else (none, r2.2)

/-- setup_order_flow_dashboard (lines 437-565). -/
def setupOrderFlowS (s : BState) (o : Oracle) (db : Nat) : Option Nat × BState :=
  let r1 := createDatasetS s o db "gold" "order_flow_summary"
    "Complete order flow with all stage timestamps and durations"
  let r2 := if truthyOpt r1.1 then r1
    else createVirtualDatasetS r1.2 o db "vw_order_flow_summary"
      "sql_order_flow_summary" (some "gold")
  if truthyOpt r2.1 then
    let c1 := createChartS r2.2 o "Order Flow - Summary" "table" (r2.1.getD 0)
      "Order summary information"
    let c2 := createChartS c1.2 o "Order Flow - Stage Durations" "dist_bar" (r2.1.getD 0)
      "Average time spent in each stage by priority"
    let c3 := createChartS c2.2 o "Order Flow - Timeline" "table" (r2.1.getD 0)
      "Order flow timeline with timestamps"
    createDashboardS c3.2 o "Order Flow Tracker" "order-flow-tracker"
      [c1.1, c2.1, c3.1]
  else (none, r2.2)

/-- setup_tote_lookup_dashboard (lines 568-625): virtual dataset only, no
physical attempt. -/
def setupToteLookupS (s : BState) (o : Oracle) (db : Nat) : Option Nat × BState :=
  let r := createVirtualDatasetS s o db "vw_orders_by_tote"
    "sql_orders_by_tote" (some "consolidation_db")
  if truthyOpt r.1 then
    let c1 := createChartS r.2 o "Tote Lookup - Orders" "table" (r.1.getD 0)
      "Orders in consolidation with tote information"
    createDashboardS c1.2 o "Tote Lookup" "tote-lookup" [c1.1]
  else (none, r.2)

/-- setup_route_performance_dashboard (lines 628-729). -/
def setupRoutePerformanceS (s : BState) (o : Oracle) (db : Nat) : Option Nat × BState :=
  let r1 := createDatasetS s o db "gold" "route_performance_by_zone_daily"
    "Daily route performance metrics by warehouse zone"
  let r2 := if truthyOpt r1.1 then r1
    else createVirtualDatasetS r1.2 o db "vw_route_performance_by_zone"
      "sql_route_performance_by_zone" (some "routing_db")
  if truthyOpt r2.1 then
    let c1 := createChartS r2.2 o "Route Performance - Routes by Zone" "dist_bar"
      (r2.1.getD 0) "Number of routes per zone"
    let c2 := createChartS c1.2 o "Route Performance - Avg Distance" "big_number_total"
      (r2.1.getD 0) "Average estimated distance (m)"
    let c3 := createChartS c2.2 o "Route Performance - Details" "table" (r2.1.getD 0)
      "Route performance details"
    createDashboardS c3.2 o "Route Performance by Zone" "route-performance"
      [c1.1, c2.1, c3.1]
  else (none, r2.2)

/-- setup_route_optimization_dashboard (lines 732-821). -/
def setupRouteOptimizationS (s : BState) (o : Oracle) (db : Nat) : Option Nat × BState :=
  let r1 := createDatasetS s o db "gold" "route_optimization_candidates"
    "Routes with optimization scores and flags"
  let r2 := if truthyOpt r1.1 then r1
    else createVirtualDatasetS r1.2 o db "vw_route_optimization_candidates"
      "sql_route_optimization_candidates" (some "routing_db")
  if truthyOpt r2.1 then
    let c1 := createChartS r2.2 o "Route Optimization - Score Distribution" "dist_bar"
      (r2.1.getD 0) "Distribution of routes by optimization score"
    let c2 := createChartS c1.2 o "Route Optimization - Routes Needing Attention" "table"
      (r2.1.getD 0) "Routes with highest optimization scores"
    createDashboardS c2.2 o "Route Optimization Analysis" "route-optimization"
      [c1.1, c2.1]
  else (none, r2.2)

/-- setup_labor_performance_dashboard (lines 828-919): no virtual fallback. -/
def setupLaborPerformanceS (s : BState) (o : Oracle) (db : Nat) : Option Nat × BState :=
  let r := createDatasetS s o db "gold" "labor_productivity_daily"
    "Daily labor productivity metrics by worker, zone, and shift"
  if truthyOpt r.1 then
    let c1 := createChartS r.2 o "Labor - Total Workers" "big_number_total" (r.1.getD 0)
      "Total active workers"
    let c2 := createChartS c1.2 o "Labor - Avg Items/Hour" "big_number_total" (r.1.getD 0)
      "Average items processed per hour"
    let c3 := createChartS c2.2 o "Labor - Productivity by Zone" "dist_bar" (r.1.getD 0)
      "Average productivity by zone"
    let c4 := createChartS c3.2 o "Labor - Worker Performance" "table" (r.1.getD 0)
      "Worker performance details"
    createDashboardS c4.2 o "Labor Performance" "labor-performance"
      [c1.1, c2.1, c3.1, c4.1]
  else (none, r.2)

/-- setup_inventory_analytics_dashboard (lines 922-1008). -/
def setupInventoryAnalyticsS (s : BState) (o : Oracle) (db : Nat) : Option Nat × BState :=
  let r := createDatasetS s o db "silver" "inventory_current"
    "Current inventory levels and stock status"
  if truthyOpt r.1 then
    let c1 := createChartS r.2 o "Inventory - Total SKUs" "big_number_total" (r.1.getD 0)
      "Total unique SKUs"
    let c2 := createChartS c1.2 o "Inventory - Total Units" "big_number_total" (r.1.getD 0)
      "Total units in inventory"
    let c3 := createChartS c2.2 o "Inventory - Low Stock Alerts" "big_number_total"
      (r.1.getD 0) "SKUs below reorder point"
    let c4 := createChartS c3.2 o "Inventory - Reorder Alerts" "table" (r.1.getD 0)
      "SKUs requiring reorder"
    createDashboardS c4.2 o "Inventory Analytics" "inventory-analytics"
      [c1.1, c2.1, c3.1, c4.1]
  else (none, r.2)

/-- setup_wave_performance_dashboard (lines 1011-1101). -/
def setupWavePerformanceS (s : BState) (o : Oracle) (db : Nat) : Option Nat × BState :=
  let r := createDatasetS s o db "gold" "wave_performance_daily"
    "Daily wave execution metrics by wave type"
  if truthyOpt r.1 then
    let c1 := createChartS r.2 o "Wave - Total Waves" "big_number_total" (r.1.getD 0)
      "Total waves created"
    let c2 := createChartS c1.2 o "Wave - Completion Rate" "big_number_total" (r.1.getD 0)
      "Wave completion rate"
    let c3 := createChartS c2.2 o "Wave - By Type" "dist_bar" (r.1.getD 0)
      "Waves by type"
    let c4 := createChartS c3.2 o "Wave - Performance Details" "table" (r.1.getD 0)
      "Wave performance details"
    createDashboardS c4.2 o "Wave Performance" "wave-performance"
      [c1.1, c2.1, c3.1, c4.1]
  else (none, r.2)

/-- setup_receiving_dashboard (lines 1104-1194). -/
def setupReceivingS (s : BState) (o : Oracle) (db : Nat) : Option Nat × BState :=
  let r := createDatasetS s o db "gold" "receiving_metrics_daily"
    "Daily receiving metrics by dock door"
  if truthyOpt r.1 then
    let c1 := createChartS r.2 o "Receiving - Total Receipts" "big_number_total"
      (r.1.getD 0) "Total receipts processed"
    let c2 := createChartS c1.2 o "Receiving - Dock-to-Stock" "big_number_total"
      (r.1.getD 0) "Average dock-to-stock time"
    let c3 := createChartS c2.2 o "Receiving - Units by Dock" "dist_bar" (r.1.getD 0)
      "Units received by dock door"
    let c4 := createChartS c3.2 o "Receiving - Details" "table" (r.1.getD 0)
      "Receiving performance details"
    createDashboardS c4.2 o "Receiving Operations" "receiving"
      [c1.1, c2.1, c3.1, c4.1]
  else (none, r.2)

/-- setup_operations_kpi_dashboard (lines 1197-1314). -/
def setupOperationsKpiS (s : BState) (o : Oracle) (db : Nat) : Option Nat × BState :=
  let r := createDatasetS s o db "gold" "operations_summary_daily"
    "Daily operations summary with key metrics across all domains"
  if truthyOpt r.1 then
    let c1 := createChartS r.2 o "KPI - Orders Today" "big_number_total" (r.1.getD 0)
      "Total orders received"
    let c2 := createChartS c1.2 o "KPI - Fulfillment Rate" "big_number_total" (r.1.getD 0)
      "Order fulfillment rate"
    let c3 := createChartS c2.2 o "KPI - Items Picked" "big_number_total" (r.1.getD 0)
      "Total items picked"
    let c4 := createChartS c3.2 o "KPI - Shipments" "big_number_total" (r.1.getD 0)
      "Total shipments sent"
    let c5 := createChartS c4.2 o "KPI - Active Workers" "big_number_total" (r.1.getD 0)
      "Active workers"
    let c6 := createChartS c5.2 o "KPI - Operations Summary" "table" (r.1.getD 0)
      "Daily operations summary"
    createDashboardS c6.2 o "Operations KPI" "operations-kpi"
      [c1.1, c2.1, c3.1, c4.1, c5.1, c6.1]
  else (none, r.2)

/-- Outcome of one run of `main`: process exit code, the database-connection
upsert's result, the ten setup results in program order, and the final
backend state (including the log of creation POSTs issued). -/
structure RunResult where
  exitCode : Nat
  dbId : Option Nat
  results : List (Option Nat)
  state : BState
deriving DecidableEq

/-- The `main` orchestration (lines 1317-1371): obtain the database
connection; when it is falsy, `sys.exit(1)` before any further upsert;
otherwise run the ten setup routines in order and finish with exit code 0
regardless of their individual outcomes. -/
def runMainS (s : BState) (o : Oracle) : RunResult :=
  let rdb := createDatabaseConnectionS s o
  if truthyOpt rdb.1 then
    let db := rdb.1.getD 0
    let a1 := setupOrdersRequirementsChartS rdb.2 o db
    let a2 := setupOrderFlowS a1.2 o db
    let a3 := setupToteLookupS a2.2 o db
    let a4 := setupRoutePerformanceS a3.2 o db
    let a5 := setupRouteOptimizationS a4.2 o db
    let a6 := setupLaborPerformanceS a5.2 o db
    let a7 := setupInventoryAnalyticsS a6.2 o db
    let a8 := setupWavePerformanceS a7.2 o db
    let a9 := setupReceivingS a8.2 o db
    let a10 := setupOperationsKpiS a9.2 o db
    { exitCode := 0
      dbId := rdb.1
      results := [a1.1, a2.1, a3.1, a4.1, a5.1, a6.1, a7.1, a8.1, a9.1, a10.1]
      state := a10.2 }
  else
    { exitCode := 1, dbId := rdb.1, results := [], state := rdb.2 }

/-- An initially empty backend, with positive auto-increment ids. -/
def emptyState : BState :=
  { dbs := [], dsets := [], charts := [], dashes := [], nextId := 1, posts := [] }

/-- A backend holding one unrelated pre-existing database named
"My-WMS-Prod". -/
def stateWms : BState :=
  { dbs := [(7, "My-WMS-Prod")], dsets := [], charts := [], dashes := []
    nextId := 8, posts := [] }

/-- A backend holding one unrelated pre-existing database named
"postgres". -/
def statePostgres : BState :=
  { dbs := [(3, "postgres")], dsets := [], charts := [], dashes := []
    nextId := 4, posts := [] }

/-! ## Response-level view of the listing calls

For the error-handling analysis of the existence check, the listing HTTP
response is made explicit: either a body that fails JSON decoding (Python
`response.json()` raises, the exception propagating to the caller) or a
decodable body that may or may not carry the expected `result` list, together
with the HTTP status code. The scripts read listings only through
`response.json().get("result", [])` and never consult the status. -/

/-- A listing response: undecodable body, or a decodable body with an
optional `result` list and an HTTP status. -/
inductive ListResp
  | badJson
  | body (result : Option (List (Nat × String))) (status : Nat)
deriving DecidableEq

/-- A creation-POST response: 2xx with an assigned id, or a rejection. -/
inductive PostResp
  | accepted (id : Nat)
  | rejected (status : Nat)
deriving DecidableEq

/-- The listing decode `response.json().get("result", [])`: an undecodable
body raises (modelled as `Except.error`), a decodable body without `result`
yields the empty list, and the status is dropped unread. -/
def listedResult : ListResp → Except Unit (List (Nat × String))
  | .badJson => .error ()
  | .body r _ => .ok (r.getD [])

/-- Response-level `create_chart` (lines 271-299): the same logic as
`createChartS` with the listing and POST responses passed explicitly.
Returns the result (or the propagated decode error) and the creation POSTs
issued. -/
def createChartR (listing : ListResp) (post : PostResp)
    (slice_name viz_type : String) (datasource_id : Nat) (description : String) :
    Except Unit (Option Nat) × List Payload :=
  match listedResult listing with
  | .error e => (.error e, [])
  | .ok charts =>
    match findByName charts slice_name with
    | some id => (.ok (some id), [])
    | none =>
      let p := Payload.chart slice_name viz_type datasource_id description
      match post with
      | .accepted id => (.ok (some id), [p])
      | .rejected _ => (.ok none, [p])

/-- Response-level `create_virtual_dataset` (lines 167-210), with the listing
response and both POST responses passed explicitly. -/
def createVirtualDatasetR (listing : ListResp) (post1 post2 : PostResp)
    (db : Nat) (name sql : String) (schema : Option String) :
    Except Unit (Option Nat) × List Payload :=
  match listedResult listing with
  | .error e => (.error e, [])
  | .ok dsets =>
    match findByName dsets name with
    | some id => (.ok (some id), [])
    | none =>
      let p1 := Payload.dataset (vdPrimary db name sql schema)
      match post1 with
      | .accepted id => (.ok (some id), [p1])
      | .rejected _ =>
        let p2 := Payload.dataset
          { vdPrimary db name sql schema with
            schema := some (if truthyStr schema then schema.getD "" else "gold") }
        match post2 with
        | .accepted id => (.ok (some id), [p1, p2])
        | .rejected _ => (.ok none, [p1, p2])

/-! ## Grafana RED-metrics model

Embedding of `deployments/o11y/red-metrics/create-dashboards.py`: the panel
template expander `build_panel`, the request wrapper `grafana_request`, and
the per-service creation loop of `main`. JSON values are simplified to the
two shapes the control flow distinguishes (strings and numbers); panel
fields that are copied verbatim and never inspected (gridPos, fieldConfig,
options, transformations) are carried as opaque strings. -/

/-- One query definition of a panel template (dashboards.json), with the
optional presentation fields `build_panel` copies over. -/
structure QueryDef where
  refId : String
  expr : String
  legendFormat : Option String
  format : Option String
  instant : Option Bool
deriving DecidableEq

/-- A panel template: fixed structural fields plus query definitions. -/
structure PanelTemplate where
  id : Nat
  title : String
  ptype : String
  gridPos : String
  description : Option String
  fieldConfig : Option String
  options : Option String
  transformations : Option String
  queries : List QueryDef
deriving DecidableEq

/-- One expanded query target of a panel. -/
structure Target where
  refId : String
  expr : String
  dsType : String
  dsUid : String
  legendFormat : Option String
  format : Option String
  instant : Option Bool
deriving DecidableEq

/-- A fully instantiated panel. -/
structure Panel where
  id : Nat
  title : String
  ptype : String
  gridPos : String
  dsType : String
  dsUid : String
  description : Option String
  fieldConfig : Option String
  options : Option String
  transformations : Option String
  targets : List Target
deriving DecidableEq

/-- The service placeholder token `build_panel` substitutes (line 66). -/
def placeholder : String := "$\x7bSERVICE\x7d"

/-- The panel expander `build_panel` (create-dashboards.py lines 35-78):
copies the structural fields, attaches the caller-supplied datasource
reference, and builds one target per query definition, replacing every
occurrence of the placeholder in the query expression by the service name. -/
def buildPanel (pt : PanelTemplate) (service : String) (prometheus_uid : String) :
    Panel :=
  { id := pt.id
    title := pt.title
    ptype := pt.ptype
    gridPos := pt.gridPos
    dsType := "prometheus"
    dsUid := prometheus_uid
    description := pt.description
    fieldConfig := pt.fieldConfig
    options := pt.options
    transformations := pt.transformations
    targets := pt.queries.map fun q =>
      { refId := q.refId
        expr := replaceAllStr q.expr placeholder service
        dsType := "prometheus"
        dsUid := prometheus_uid
        legendFormat := q.legendFormat
        format := q.format
        instant := q.instant } }

/-- A simplified JSON value: the loop only ever compares a field against the
string "success" or stores a numeric HTTP code. -/
inductive GVal
  | str (s : String)
  | num (n : Nat)
deriving DecidableEq

/-- Field lookup in a JSON object (Python `dict.get`). -/
def lookupG : List (String × GVal) → String → Option GVal
  | [], _ => none
  | (k, v) :: rest, key => if k = key then some v else lookupG rest key

/-- The response behaviour of the Grafana backend to one dashboard POST:
either an HTTP error response (urllib raises `HTTPError`) or a decoded 2xx
JSON body. -/
inductive GResp
  | httpError (code : Nat) (body : String)
  | ok (fields : List (String × GVal))
deriving DecidableEq

/-- The request wrapper `grafana_request` (lines 119-138): a 2xx response is
decoded and returned; an `HTTPError` is caught and converted into the
dictionary `\x7b"error": body, "status": code\x7d` instead of propagating. -/
def grafanaRequest : GResp → List (String × GVal)
  | .ok fields => fields
  | .httpError code body => [("error", .str body), ("status", .num code)]

/-- Tally of one run of the red-metrics `main` loop. -/
structure RedResult where
  succ : Nat
  fail : Nat
  exit : Nat
deriving DecidableEq

/-- The folding step of the per-service loop (lines 208-219): a result whose
`status` field equals "success" counts as created, anything else as failed. -/
def redStep (respond : String → GResp) (acc : Nat × Nat) (svc : String) : Nat × Nat :=
  if lookupG (grafanaRequest (respond svc)) "status" = some (.str "success")
  then (acc.1 + 1, acc.2)
  else (acc.1, acc.2 + 1)

/-- The per-service creation loop and exit code of the red-metrics `main`
(lines 204-237): one POST per service through `grafana_request`, tallying
successes and failures, returning 0 exactly when no service failed. -/
def runRed (services : List String) (respond : String → GResp) : RedResult :=
  let t := services.foldl (redStep respond) (0, 0)
  { succ := t.1, fail := t.2, exit := if t.2 = 0 then 0 else 1 }

/-- Whether a Grafana response is an HTTP error response. -/
def isErrorResp : GResp → Bool
  | .httpError _ _ => true
  | .ok _ => false

/-! ## Helper lemmas about the layout synthesis -/

/-- Keys of the leaf dictionary. -/
def keysOf (m : List (String × LeafMeta)) : List String := m.map Prod.fst

theorem addChart_rootChildren (pj : PositionJson) (oc : Option Nat) :
    (addChart pj oc).rootChildren = pj.rootChildren := by
  cases oc with
  | none => rfl
  | some cid => by_cases h : cid = 0 <;> simp [addChart, h]

theorem addChart_gridChildren (pj : PositionJson) (oc : Option Nat) :
    (addChart pj oc).gridChildren = pj.gridChildren := by
  cases oc with
  | none => rfl
  | some cid => by_cases h : cid = 0 <;> simp [addChart, h]

theorem foldl_addChart_rootChildren :
    ∀ (ids : List (Option Nat)) (pj : PositionJson),
      (List.foldl addChart pj ids).rootChildren = pj.rootChildren := by
  intro ids
  induction ids with
  | nil => intro pj; rfl
  | cons oc rest ih =>
    intro pj
    rw [List.foldl_cons, ih, addChart_rootChildren]

theorem foldl_addChart_gridChildren :
    ∀ (ids : List (Option Nat)) (pj : PositionJson),
      (List.foldl addChart pj ids).gridChildren = pj.gridChildren := by
  intro ids
  induction ids with
  | nil => intro pj; rfl
  | cons oc rest ih =>
    intro pj
    rw [List.foldl_cons, ih, addChart_gridChildren]

theorem foldl_addChart_rowChildren :
    ∀ (ids : List (Option Nat)) (pj : PositionJson),
      (List.foldl addChart pj ids).rowChildren =
        pj.rowChildren ++ (truthyIds ids).map chartKey := by
  intro ids
  induction ids with
  | nil => intro pj; simp [truthyIds]
  | cons oc rest ih =>
    intro pj
    rw [List.foldl_cons, ih]
    cases oc with
    | none => simp [addChart, truthyIds]
    | some cid =>
      by_cases h : cid = 0 <;> simp [addChart, truthyIds, h, List.append_assoc]

theorem mem_dictInsert :
    ∀ (m : List (String × LeafMeta)) (k : String) (v : LeafMeta) (q : String × LeafMeta),
      q ∈ dictInsert m k v → q.2 = v ∨ q ∈ m := by
  intro m
  induction m with
  | nil =>
    intro k v q hq
    rw [dictInsert] at hq
    rcases List.mem_singleton.mp hq with rfl
    exact Or.inl rfl
  | cons kv rest ih =>
    intro k v q hq
    obtain ⟨k0, v0⟩ := kv
    rw [dictInsert] at hq
    by_cases hk : k0 = k
    · rw [if_pos hk] at hq
      rcases List.mem_cons.mp hq with rfl | hmem
      · exact Or.inl rfl
      · exact Or.inr (List.mem_cons_of_mem _ hmem)
    · rw [if_neg hk] at hq
      rcases List.mem_cons.mp hq with rfl | hmem
      · exact Or.inr (List.mem_cons_self _ _)
      · rcases ih k v q hmem with h2 | h2
        · exact Or.inl h2
        · exact Or.inr (List.mem_cons_of_mem _ h2)

theorem foldl_addChart_leaves_meta :
    ∀ (ids : List (Option Nat)) (pj : PositionJson),
      (∀ q ∈ pj.leaves, q.2.width = 4 ∧ q.2.height = 50) →
      ∀ q ∈ (List.foldl addChart pj ids).leaves, q.2.width = 4 ∧ q.2.height = 50 := by
  intro ids
  induction ids with
  | nil => intro pj h; exact h
  | cons oc rest ih =>
    intro pj h
    rw [List.foldl_cons]
    apply ih
    intro q hq
    cases oc with
    | none => exact h q hq
    | some cid =>
      by_cases hz : cid = 0
      · simp only [addChart, hz, if_pos rfl] at hq
        exact h q hq
      · simp only [addChart, if_neg hz] at hq
        rcases mem_dictInsert pj.leaves (chartKey cid) ⟨4, 50, cid⟩ q hq with h2 | h2
        · rw [h2]; exact ⟨rfl, rfl⟩
        · exact h q h2

theorem keysOf_cons (k0 : String) (v0 : LeafMeta) (l : List (String × LeafMeta)) :
    keysOf ((k0, v0) :: l) = k0 :: keysOf l := rfl

theorem keysOf_dictInsert (m : List (String × LeafMeta)) (k : String) (v : LeafMeta) :
    keysOf (dictInsert m k v) =
      if k ∈ keysOf m then keysOf m else keysOf m ++ [k] := by
  induction m with
  | nil => simp [dictInsert, keysOf]
  | cons kv rest ih =>
    obtain ⟨k0, v0⟩ := kv
    rw [dictInsert]
    by_cases hk : k0 = k
    · subst hk
      rw [if_pos rfl, keysOf_cons, keysOf_cons]
      rw [if_pos (List.mem_cons_self _ _)]
    · rw [if_neg hk]
      have hne : ¬ k = k0 := fun h => hk h.symm
      by_cases hk2 : k ∈ keysOf rest
      · have hmem : k ∈ keysOf ((k0, v0) :: rest) := by
          rw [keysOf_cons]; exact List.mem_cons_of_mem _ hk2
        rw [if_pos hmem, keysOf_cons, keysOf_cons, ih, if_pos hk2]
      · have hmem : k ∉ keysOf ((k0, v0) :: rest) := by
          rw [keysOf_cons]
          intro hm
          rcases List.mem_cons.mp hm with h | h
          · exact hne h
          · exact hk2 h
        rw [if_neg hmem, keysOf_cons, keysOf_cons, ih, if_neg hk2, List.cons_append]

theorem nodup_keysOf_dictInsert (m : List (String × LeafMeta)) (k : String)
    (v : LeafMeta) (h : (keysOf m).Nodup) : (keysOf (dictInsert m k v)).Nodup := by
  rw [keysOf_dictInsert]
  by_cases hk : k ∈ keysOf m
  · rw [if_pos hk]; exact h
  · rw [if_neg hk]
    simp [List.nodup_append, h, hk]

theorem mem_keysOf_dictInsert_self (m : List (String × LeafMeta)) (k : String)
    (v : LeafMeta) : k ∈ keysOf (dictInsert m k v) := by
  rw [keysOf_dictInsert]
  by_cases hk : k ∈ keysOf m
  · rw [if_pos hk]; exact hk
  · rw [if_neg hk]; exact List.mem_append_right _ (List.mem_singleton.mpr rfl)

theorem mem_keysOf_dictInsert_mono (m : List (String × LeafMeta)) (k k1 : String)
    (v : LeafMeta) (h : k1 ∈ keysOf m) : k1 ∈ keysOf (dictInsert m k v) := by
  rw [keysOf_dictInsert]
  by_cases hk : k ∈ keysOf m
  · rw [if_pos hk]; exact h
  · rw [if_neg hk]; exact List.mem_append_left _ h

theorem foldl_addChart_keys_nodup :
    ∀ (ids : List (Option Nat)) (pj : PositionJson),
      (keysOf pj.leaves).Nodup → (keysOf (List.foldl addChart pj ids).leaves).Nodup := by
  intro ids
  induction ids with
  | nil => intro pj h; exact h
  | cons oc rest ih =>
    intro pj h
    rw [List.foldl_cons]
    apply ih
    cases oc with
    | none => exact h
    | some cid =>
      by_cases hz : cid = 0
      · simpa [addChart, hz] using h
      · simp only [addChart, if_neg hz]
        exact nodup_keysOf_dictInsert _ _ _ h

theorem foldl_addChart_keys_mono :
    ∀ (ids : List (Option Nat)) (pj : PositionJson) (k : String),
      k ∈ keysOf pj.leaves → k ∈ keysOf (List.foldl addChart pj ids).leaves := by
  intro ids
  induction ids with
  | nil => intro pj k h; exact h
  | cons oc rest ih =>
    intro pj k h
    rw [List.foldl_cons]
    apply ih
    cases oc with
    | none => exact h
    | some cid =>
      by_cases hz : cid = 0
      · simpa [addChart, hz] using h
      · simp only [addChart, if_neg hz]
        exact mem_keysOf_dictInsert_mono _ _ _ _ h

theorem foldl_addChart_keys_of_mem :
    ∀ (ids : List (Option Nat)) (pj : PositionJson) (cid : Nat),
      cid ≠ 0 → some cid ∈ ids →
      chartKey cid ∈ keysOf (List.foldl addChart pj ids).leaves := by
  intro ids
  induction ids with
  | nil => intro pj cid _ h; exact absurd h (List.not_mem_nil _)
  | cons oc rest ih =>
    intro pj cid hz hmem
    rw [List.foldl_cons]
    rcases List.mem_cons.mp hmem with rfl | hmem2
    · apply foldl_addChart_keys_mono
      simp only [addChart, if_neg hz]
      exact mem_keysOf_dictInsert_self _ _ _
    · exact ih _ cid hz hmem2

theorem count_le_count_map (l : List Nat) (f : Nat → String) (a : Nat) :
    l.count a ≤ (l.map f).count (f a) := by
  induction l with
  | nil => simp
  | cons b rest ih =>
    by_cases hba : b = a
    · subst hba
      simp only [List.map_cons, List.count_cons_self]
      omega
    · rw [List.map_cons]
      rw [List.count_cons, List.count_cons]
      have h1 : ¬ (b = a) := hba
      by_cases h2 : f b = f a <;> simp [h1, h2] <;> omega

theorem count_truthyIds (ids : List (Option Nat)) (cid : Nat) (hz : cid ≠ 0) :
    (truthyIds ids).count cid = ids.count (some cid) := by
  induction ids with
  | nil => simp [truthyIds]
  | cons oc rest ih =>
    cases oc with
    | none => simp [truthyIds, List.count_cons, ih]
    | some m =>
      by_cases hm : m = 0
      · subst hm
        have hz2 : ¬ (0 = cid) := fun h => hz h.symm
        have : ¬ ((some 0 : Option Nat) = some cid) := by
          intro h; exact hz (Option.some.inj h).symm
        simp [truthyIds, List.count_cons, ih, this, hz2]
      · by_cases hmc : m = cid
        · subst hmc
          simp [truthyIds, hm, List.count_cons, ih]
        · have : ¬ ((some m : Option Nat) = some cid) := by
            intro h; exact hmc (Option.some.inj h)
          simp [truthyIds, hm, List.count_cons, ih, hmc, this]

/-! ## Helper lemmas about the database-connection upsert -/

theorem findDbMatch_mem :
    ∀ (l : List (Nat × String)) (i : Nat), findDbMatch l = some i →
      ∃ n, (i, n) ∈ l := by
  intro l
  induction l with
  | nil => intro i h; exact absurd h (by rw [findDbMatch]; simp)
  | cons e rest ih =>
    intro i h
    obtain ⟨j, n⟩ := e
    rw [findDbMatch] at h
    by_cases hc : occursIn (lowerS n) "trino".data || occursIn (lowerS n) "wms".data
    · rw [if_pos hc] at h
      cases h
      exact ⟨n, List.mem_cons_self _ _⟩
    · rw [if_neg hc] at h
      obtain ⟨n2, hmem⟩ := ih i h
      exact ⟨n2, List.mem_cons_of_mem _ hmem⟩

/-- The creation payload of the Trino database connection (lines 137-152). -/
def trinoPayload : Payload :=
  Payload.db "Trino - WMS Data Mesh" "trino"
    "trino://trino@trino.data-mesh.svc.cluster.local:8080/iceberg"

theorem createDbConn_pos (s : BState) (o : Oracle)
    (hdb : ∀ d ∈ s.dbs, 1 ≤ d.1) (hnext : 1 ≤ s.nextId) (id : Nat)
    (h : (createDatabaseConnectionS s o).1 = some id) : 1 ≤ id := by
  unfold createDatabaseConnectionS at h
  split at h
  · rename_i j heq
    simp only [Option.some.injEq] at h
    subst h
    obtain ⟨n, hmem⟩ := findDbMatch_mem s.dbs j heq
    exact hdb (j, n) hmem
  · split at h
    · simp only [Option.some.injEq] at h
      subst h
      exact hnext
    · split at h
      · simp at h
      · rename_i d rest heq2
        simp only [Option.some.injEq] at h
        subst h
        exact hdb d (heq2 ▸ List.mem_cons_self d rest)

theorem createDbConn_filter_posts (s : BState) (o : Oracle) :
    (createDatabaseConnectionS s o).2.posts.filter (fun p => !p.isDb)
      = s.posts.filter (fun p => !p.isDb) := by
  unfold createDatabaseConnectionS
  split
  · rfl
  · split
    · simp [Payload.isDb]
    · split <;> simp [Payload.isDb]

/-! ## Helper lemmas about the red-metrics tally -/

/-- Whether the loop counts the service's POST as created. -/
def okSvc (respond : String → GResp) (svc : String) : Bool :=
  lookupG (grafanaRequest (respond svc)) "status" = some (.str "success")

theorem foldl_redStep (respond : String → GResp) :
    ∀ (services : List String) (acc : Nat × Nat),
      List.foldl (redStep respond) acc services =
        (acc.1 + (services.filter (okSvc respond)).length,
         acc.2 + (services.filter (fun svc => !okSvc respond svc)).length) := by
  intro services
  induction services with
  | nil => intro acc; simp
  | cons svc rest ih =>
    intro acc
    rw [List.foldl_cons, ih]
    by_cases h : okSvc respond svc
    · have h2 : lookupG (grafanaRequest (respond svc)) "status"
          = some (.str "success") := by simpa [okSvc] using h
      simp [redStep, h2, List.filter_cons, h, Nat.add_assoc, Nat.add_comm,
        Nat.add_left_comm]
    · have h2 : ¬ (lookupG (grafanaRequest (respond svc)) "status"
          = some (.str "success")) := by simpa [okSvc] using h
      simp [redStep, h2, List.filter_cons, h, Nat.add_assoc, Nat.add_comm,
        Nat.add_left_comm]

/-! ## Projection lemmas for one run of `main` -/

theorem runMainS_dbId (s : BState) (o : Oracle) :
    (runMainS s o).dbId = (createDatabaseConnectionS s o).1 := by
  unfold runMainS
  dsimp only
  split <;> rfl

theorem runMainS_exitCode (s : BState) (o : Oracle) :
    (runMainS s o).exitCode =
      if truthyOpt (createDatabaseConnectionS s o).1 then 0 else 1 := by
  unfold runMainS
  dsimp only
  split <;> simp_all

theorem runMainS_state_of_not_truthy (s : BState) (o : Oracle)
    (h : truthyOpt (createDatabaseConnectionS s o).1 = false) :
    (runMainS s o).state = (createDatabaseConnectionS s o).2 := by
  unfold runMainS
  dsimp only
  rw [h]
  rfl

/-- Well-formed starting point of a run: backend ids are positive (real
backends assign positive auto-increment ids) and the log of creation POSTs
of the run is still empty. -/
def wfS (s : BState) : Prop :=
  (∀ d ∈ s.dbs, 1 ≤ d.1) ∧ 1 ≤ s.nextId ∧ s.posts = []

/-! ## The claims -/

/-- C1: running the full orchestration twice against the same initially empty
all-accepting backend yields the same final set of named resources as running
it once: the second run returns the same ids for every upsert, leaves the
backend state (including the cumulative creation-POST log) unchanged — so it
issues no creation POST — and both runs exit with code 0. -/
theorem c1_rerun_idempotent :
    (runMainS (runMainS emptyState allAccept).state allAccept).state
        = (runMainS emptyState allAccept).state ∧
    (runMainS (runMainS emptyState allAccept).state allAccept).results
        = (runMainS emptyState allAccept).results ∧
    (runMainS (runMainS emptyState allAccept).state allAccept).dbId
        = (runMainS emptyState allAccept).dbId ∧
    (runMainS emptyState allAccept).exitCode = 0 ∧
    (runMainS (runMainS emptyState allAccept).state allAccept).exitCode = 0 := by
  decide

/-- C2 (amended): the dataset and chart existence checks are first-match
case-sensitive exact-name lookups (a hit carries exactly the requested name);
the dashboard check matches on slug or title exactly; but the
database-connection check is a case-insensitive substring scan for "trino" or
"wms" against the listed names, independent of the requested connection
name. -/
theorem c2_existence_match_amended :
    (∀ (l : List (Nat × String)) (name : String),
        findByName l name = (List.find? (fun e => e.2 == name) l).map Prod.fst) ∧
    (∀ (l : List (Nat × String)) (name : String) (i : Nat),
        findByName l name = some i → (i, name) ∈ l) ∧
    (∀ (l : List DashEntry) (slug name : String),
        findDash l slug name =
          (List.find? (fun d => d.slug == slug || d.title == name) l).map
            DashEntry.id) ∧
    (∀ (l : List (Nat × String)),
        findDbMatch l =
          (List.find? (fun e =>
            occursIn (lowerS e.2) "trino".data || occursIn (lowerS e.2) "wms".data)
            l).map Prod.fst) := by
  refine ⟨?_, ?_, ?_, ?_⟩
  · intro l name
    induction l with
    | nil => rfl
    | cons e rest ih =>
      obtain ⟨i, n⟩ := e
      by_cases h : n = name
      · rw [findByName, if_pos h, List.find?_cons_of_pos _ (by simp [h])]
        rfl
      · rw [findByName, if_neg h, ih, List.find?_cons_of_neg _ (by simp [h])]
  · intro l name i
    induction l with
    | nil => intro h; rw [findByName] at h; cases h
    | cons e rest ih =>
      obtain ⟨j, n⟩ := e
      intro h
      rw [findByName] at h
      by_cases hn : n = name
      · rw [if_pos hn] at h
        cases h
        subst hn
        exact List.mem_cons_self _ _
      · rw [if_neg hn] at h
        exact List.mem_cons_of_mem _ (ih h)
  · intro l slug name
    induction l with
    | nil => rfl
    | cons d rest ih =>
      by_cases h : d.slug = slug ∨ d.title = name
      · rw [findDash, if_pos h, List.find?_cons_of_pos _ (by simp [h])]
        rfl
      · rw [findDash, if_neg h, ih, List.find?_cons_of_neg _ (by simp; tauto)]
  · intro l
    induction l with
    | nil => rfl
    | cons e rest ih =>
      obtain ⟨i, n⟩ := e
      by_cases h : occursIn (lowerS n) "trino".data || occursIn (lowerS n) "wms".data
      · rw [findDbMatch, if_pos h, List.find?_cons_of_pos _ (by simpa using h)]
        rfl
      · rw [findDbMatch, if_neg h, ih,
          List.find?_cons_of_neg _ (by simpa using h)]

/-- C2 witness: the exact-match characterization applied at a concrete
dataset listing. -/
theorem c2_existence_match_witness :
    ((5, "order_flow_summary") : Nat × String) ∈
      [((5 : Nat), "order_flow_summary")] :=
  c2_existence_match_amended.2.1 [(5, "order_flow_summary")]
    "order_flow_summary" 5 (by decide)

/-- C2 counterexample: against a backend whose only database is named
"My-WMS-Prod", the database-connection upsert reuses that connection (id 7,
no creation POST issued) even though its name is not equal to the requested
name "Trino - WMS Data Mesh" — the check is a case-insensitive substring
scan, not a case-sensitive exact match. -/
theorem c2_substring_reuse_cex :
    (createDatabaseConnectionS stateWms allAccept).1 = some 7 ∧
    (createDatabaseConnectionS stateWms allAccept).2.posts = [] ∧
    "My-WMS-Prod" ≠ "Trino - WMS Data Mesh" := by
  decide

/-- C7: if the database-connection upsert of a run from a well-formed
backend state is falsy, the run dies before any dataset, chart or dashboard
creation POST (the post log holds only database-connection POSTs), and the
process exit status is nonzero exactly when the database connection upsert
returned `None` — no matter how the backend answers any later creation
POST. -/
theorem c7_dependency_gating_exit (s : BState) (o : Oracle) (h : wfS s) :
    ((runMainS s o).dbId = none →
        (runMainS s o).state.posts.filter (fun p => !p.isDb) = []) ∧
    ((runMainS s o).exitCode ≠ 0 ↔ (runMainS s o).dbId = none) := by
  obtain ⟨hdb, hnext, hposts⟩ := h
  constructor
  · intro hnone
    rw [runMainS_dbId] at hnone
    have ht : truthyOpt (createDatabaseConnectionS s o).1 = false := by
      rw [hnone]; rfl
    rw [runMainS_state_of_not_truthy s o ht, createDbConn_filter_posts, hposts]
    rfl
  · rw [runMainS_exitCode, runMainS_dbId]
    by_cases htr : truthyOpt (createDatabaseConnectionS s o).1
    · rw [if_pos htr]
      constructor
      · intro h0; exact absurd rfl h0
      · intro hnone
        rw [hnone] at htr
        exact absurd htr (by simp [truthyOpt])
    · rw [if_neg htr]
      constructor
      · intro _
        cases hres : (createDatabaseConnectionS s o).1 with
        | none => rfl
        | some id =>
          have hge := createDbConn_pos s o hdb hnext id hres
          rw [hres] at htr
          have : truthyOpt (some id) = true := by
            simp [truthyOpt]
            omega
          exact absurd this htr
      · intro _
        exact one_ne_zero

/-- C7 witness: the gating and exit-code property applied to a run from the
empty backend against an all-rejecting backend. -/
theorem c7_dependency_gating_exit_witness :
    ((runMainS emptyState rejectAll).dbId = none →
        (runMainS emptyState rejectAll).state.posts.filter (fun p => !p.isDb) = []) ∧
    ((runMainS emptyState rejectAll).exitCode ≠ 0 ↔
        (runMainS emptyState rejectAll).dbId = none) :=
  c7_dependency_gating_exit emptyState rejectAll
    ⟨fun d hd => absurd hd (List.not_mem_nil d), Nat.le_refl 1, rfl⟩

/-- C3 (amended): when a virtual-dataset creation POST is rejected, exactly
one retry is issued, and the retry payload equals the primary payload except
that its schema field is forced to the supplied schema when a truthy one was
given and to "gold" otherwise; physical-dataset creation and creation of
every other kind (database connection, chart, dashboard) issue at most one
POST and are never retried. -/
theorem c3_retry_amended :
    (∀ (s : BState) (o : Oracle) (db : Nat) (name sql : String)
        (schema : Option String),
        findByName s.dsets name = none → o s.posts.length = false →
        (createVirtualDatasetS s o db name sql schema).2.posts =
          s.posts ++ [Payload.dataset (vdPrimary db name sql schema),
            Payload.dataset { vdPrimary db name sql schema with
              schema := some (if truthyStr schema then schema.getD "" else "gold") }]) ∧
    (∀ (s : BState) (o : Oracle) (n v : String) (d : Nat) (ds : String),
        (createChartS s o n v d ds).2.posts.length ≤ s.posts.length + 1) ∧
    (∀ (s : BState) (o : Oracle),
        (createDatabaseConnectionS s o).2.posts.length ≤ s.posts.length + 1) ∧
    (∀ (s : BState) (o : Oracle) (db : Nat) (sch tbl d : String),
        (createDatasetS s o db sch tbl d).2.posts.length ≤ s.posts.length + 1) ∧
    (∀ (s : BState) (o : Oracle) (n sl : String) (ids : List (Option Nat)),
        (createDashboardS s o n sl ids).2.posts.length ≤ s.posts.length + 1) := by
  refine ⟨?_, ?_, ?_, ?_, ?_⟩
  · intro s o db name sql schema hfind h1
    unfold createVirtualDatasetS
    rw [hfind]
    dsimp only
    rw [h1]
    simp only [Bool.false_eq_true, if_false]
    split <;> simp [List.append_assoc]
  · intro s o n v d ds
    unfold createChartS
    split
    · exact Nat.le_succ _
    · split <;> simp
  · intro s o
    unfold createDatabaseConnectionS
    split
    · exact Nat.le_succ _
    · split
      · simp
      · split <;> simp
  · intro s o db sch tbl d
    unfold createDatasetS
    split
    · exact Nat.le_succ _
    · split <;> simp
  · intro s o n sl ids
    unfold createDashboardS
    split
    · exact Nat.le_succ _
    · split <;> simp

/-- C3 witness: the retry-payload equation applied to a concrete
virtual-dataset creation with no supplied schema against an empty
all-rejecting backend. -/
theorem c3_retry_amended_witness :
    (createVirtualDatasetS emptyState rejectAll 1 "vw_orders_by_requirements"
        "sql_orders_by_requirements" none).2.posts =
      emptyState.posts ++
        [Payload.dataset (vdPrimary 1 "vw_orders_by_requirements"
            "sql_orders_by_requirements" none),
          Payload.dataset { vdPrimary 1 "vw_orders_by_requirements"
              "sql_orders_by_requirements" none with
            schema := some (if truthyStr none then
              (none : Option String).getD "" else "gold") }] :=
  c3_retry_amended.1 emptyState rejectAll 1 "vw_orders_by_requirements"
    "sql_orders_by_requirements" none rfl rfl

/-- C3 counterexample: a rejected physical-dataset creation POST (here for
gold.labor_productivity_daily against an empty all-rejecting backend) is not
retried at all — exactly one dataset creation POST is issued and the upsert
returns None — contradicting the claim that a rejected dataset creation POST
always gets exactly one retry. -/
theorem c3_physical_no_retry_cex :
    (createDatasetS emptyState rejectAll 1 "gold" "labor_productivity_daily"
        "Daily labor productivity metrics by worker, zone, and shift").2.posts.length
      = 1 ∧
    (createDatasetS emptyState rejectAll 1 "gold" "labor_productivity_daily"
        "Daily labor productivity metrics by worker, zone, and shift").1 = none := by
  decide

/-- C4 (amended): when creation finally fails, the dataset, chart and
dashboard upserts return None; the database-connection upsert instead falls
back to the id of the first listed pre-existing database when the listing was
non-empty, and returns None only when no databases were listed at all. -/
theorem c4_failure_returns_amended :
    (∀ (s : BState) (o : Oracle) (n v : String) (d : Nat) (ds : String),
        findByName s.charts n = none → o s.posts.length = false →
        (createChartS s o n v d ds).1 = none) ∧
    (∀ (s : BState) (o : Oracle) (db : Nat) (sch tbl d : String),
        findByName s.dsets tbl = none → o s.posts.length = false →
        (createDatasetS s o db sch tbl d).1 = none) ∧
    (∀ (s : BState) (o : Oracle) (db : Nat) (name sql : String)
        (schema : Option String),
        findByName s.dsets name = none → o s.posts.length = false →
        o (s.posts.length + 1) = false →
        (createVirtualDatasetS s o db name sql schema).1 = none) ∧
    (∀ (s : BState) (o : Oracle) (n sl : String) (ids : List (Option Nat)),
        findDash s.dashes sl n = none → o s.posts.length = false →
        (createDashboardS s o n sl ids).1 = none) ∧
    (∀ (s : BState) (o : Oracle),
        findDbMatch s.dbs = none → o s.posts.length = false →
        (createDatabaseConnectionS s o).1 = (s.dbs.head?).map Prod.fst) := by
  refine ⟨?_, ?_, ?_, ?_, ?_⟩
  · intro s o n v d ds hfind h1
    unfold createChartS
    rw [hfind]
    dsimp only
    rw [h1]
    simp
  · intro s o db sch tbl d hfind h1
    unfold createDatasetS
    rw [hfind]
    dsimp only
    rw [h1]
    simp
  · intro s o db name sql schema hfind h1 h2
    unfold createVirtualDatasetS
    rw [hfind]
    dsimp only
    rw [h1]
    simp only [Bool.false_eq_true, if_false]
    have hlen : (s.posts ++
        [Payload.dataset (vdPrimary db name sql schema)]).length
          = s.posts.length + 1 := by simp
    simp [hlen, h2]
  · intro s o n sl ids hfind h1
    unfold createDashboardS
    rw [hfind]
    dsimp only
    rw [h1]
    simp
  · intro s o hfind h1
    unfold createDatabaseConnectionS
    rw [hfind]
    dsimp only
    rw [h1]
    simp only [Bool.false_eq_true, if_false]
    cases s.dbs with
    | nil => rfl
    | cons d rest => rfl

/-- C4 witness: a rejected chart creation against an empty all-rejecting
backend returns None. -/
theorem c4_failure_returns_witness :
    (createChartS emptyState rejectAll "Orders by Special Requirements" "dist_bar" 2
        "Bar chart showing distribution of orders by special requirements").1
      = none :=
  c4_failure_returns_amended.1 emptyState rejectAll
    "Orders by Special Requirements" "dist_bar" 2
    "Bar chart showing distribution of orders by special requirements" rfl rfl

/-- C4 counterexample: against a backend holding one unrelated pre-existing
database "postgres" (id 3) and rejecting the creation POST (which is issued,
one POST in the log), the database-connection upsert returns the id 3 of that
unrelated database instead of None. -/
theorem c4_db_fallback_cex :
    (createDatabaseConnectionS statePostgres rejectAll).1 = some 3 ∧
    (createDatabaseConnectionS statePostgres rejectAll).2.posts.length = 1 := by
  decide

/-- C5 (amended): if the listing response body fails to decode as JSON, the
decode exception propagates to the caller and no creation POST is issued; but
the HTTP status of the listing response is never inspected, and a decodable
body without the expected result list is treated as an empty listing — in
both of those failure shapes the upsert proceeds to creation instead of
propagating. Shown for the chart and virtual-dataset upserts. -/
theorem c5_listing_failure_amended :
    (∀ (post : PostResp) (n v : String) (d : Nat) (ds : String),
        createChartR .badJson post n v d ds = (.error (), [])) ∧
    (∀ (p1 p2 : PostResp) (db : Nat) (n q : String) (sc : Option String),
        createVirtualDatasetR .badJson p1 p2 db n q sc = (.error (), [])) ∧
    (∀ (r : Option (List (Nat × String))) (st1 st2 : Nat) (post : PostResp)
        (n v : String) (d : Nat) (ds : String),
        createChartR (.body r st1) post n v d ds
          = createChartR (.body r st2) post n v d ds) ∧
    (∀ (r : Option (List (Nat × String))) (st1 st2 : Nat) (p1 p2 : PostResp)
        (db : Nat) (n q : String) (sc : Option String),
        createVirtualDatasetR (.body r st1) p1 p2 db n q sc
          = createVirtualDatasetR (.body r st2) p1 p2 db n q sc) ∧
    (∀ (st : Nat) (post : PostResp) (n v : String) (d : Nat) (ds : String),
        createChartR (.body none st) post n v d ds
          = createChartR (.body (some []) st) post n v d ds) ∧
    (∀ (st : Nat) (p1 p2 : PostResp) (db : Nat) (n q : String)
        (sc : Option String),
        createVirtualDatasetR (.body none st) p1 p2 db n q sc
          = createVirtualDatasetR (.body (some []) st) p1 p2 db n q sc) := by
  refine ⟨?_, ?_, ?_, ?_, ?_, ?_⟩
  · intro post n v d ds; rfl
  · intro p1 p2 db n q sc; rfl
  · intro r st1 st2 post n v d ds; rfl
  · intro r st1 st2 p1 p2 db n q sc; rfl
  · intro st post n v d ds; rfl
  · intro st p1 p2 db n q sc; rfl

/-- C5 counterexample: a failed chart listing call — HTTP status 500 with a
decodable body lacking the result list — neither propagates nor stops the
upsert: it is treated as an empty listing and the chart creation POST is
issued (and here succeeds with id 9), contradicting the claim that the upsert
issues no creation POST and propagates the failure. -/
theorem c5_listing_ignored_cex :
    (createChartR (.body none 500) (.accepted 9) "Orders by Special Requirements"
        "dist_bar" 2 "d").2.length = 1 ∧
    (createChartR (.body none 500) (.accepted 9) "Orders by Special Requirements"
        "dist_bar" 2 "d").1 = .ok (some 9) :=
  ⟨rfl, rfl⟩

/-- C6 (amended): for every title and ordered list of chart ids the
synthesized layout is the fixed tree root → grid → row; the row's children
are exactly the keys CHART-<id> of the truthy (non-null and nonzero) chart
ids in input order; every leaf carries width 4 and height 50; null entries
produce no leaf and do not change any later leaf's key (keys derive from ids,
not positions); and with no matching dashboard the creation POST is issued
even for an empty chart-id list. Python `if chart_id:` also skips a chart id
of 0, which the original claim's "non-null" wording does not. -/
theorem c6_layout_amended :
    (∀ (name : String) (ids : List (Option Nat)),
        (buildPositionJson name ids).rootChildren = ["GRID_ID"] ∧
        (buildPositionJson name ids).gridChildren = ["ROW-1"] ∧
        (buildPositionJson name ids).rowChildren = (truthyIds ids).map chartKey ∧
        ∀ q ∈ (buildPositionJson name ids).leaves,
          q.2.width = 4 ∧ q.2.height = 50) ∧
    (∀ (s : BState) (o : Oracle) (name slug : String),
        findDash s.dashes slug name = none →
        (createDashboardS s o name slug []).2.posts.length = s.posts.length + 1) := by
  constructor
  · intro name ids
    refine ⟨?_, ?_, ?_, ?_⟩
    · unfold buildPositionJson
      rw [foldl_addChart_rootChildren]
      rfl
    · unfold buildPositionJson
      rw [foldl_addChart_gridChildren]
      rfl
    · unfold buildPositionJson
      rw [foldl_addChart_rowChildren]
      rfl
    · unfold buildPositionJson
      apply foldl_addChart_leaves_meta
      intro q hq
      exact absurd hq (List.not_mem_nil q)
  · intro s o name slug hfind
    unfold createDashboardS
    rw [hfind]
    dsimp only
    split <;> simp

/-- C6 witness: the layout equations applied at the spec's example input
[1, null, 3], and the dashboard POST issued for an empty chart list against
an empty backend. -/
theorem c6_layout_amended_witness :
    ((buildPositionJson "D" [some 1, none, some 3]).rowChildren
        = (truthyIds [some 1, none, some 3]).map chartKey) ∧
    (createDashboardS emptyState rejectAll "Tote Lookup" "tote-lookup" []).2.posts.length
        = emptyState.posts.length + 1 :=
  ⟨(c6_layout_amended.1 "D" [some 1, none, some 3]).2.2.1,
   c6_layout_amended.2 emptyState rejectAll "Tote Lookup" "tote-lookup" rfl⟩

/-- C6 counterexample: the non-null chart id 0 produces neither a child key
nor a leaf — the row stays empty instead of holding the key CHART-0 the claim
predicts, because Python `if chart_id:` skips the falsy id 0, not only
null. -/
theorem c6_zero_id_cex :
    (buildPositionJson "D" [some 0]).rowChildren = [] ∧
    (buildPositionJson "D" [some 0]).leaves = [] ∧
    (buildPositionJson "D" [some 0]).rowChildren ≠ ["CHART-0"] := by
  decide

/-- C9 (amended): if the same truthy (nonzero) chart id occurs k ≥ 2 times in
the input list, the row's children list contains the key CHART-<id> at least
k times while the leaf dictionary contains exactly one entry under that key
(Python dict assignment overwrites repeated keys), so child references and
distinct leaves disagree for duplicated ids. -/
theorem c9_duplicate_chart_ids (name : String) (ids : List (Option Nat))
    (cid : Nat) (hz : cid ≠ 0) (hk : 2 ≤ ids.count (some cid)) :
    2 ≤ (buildPositionJson name ids).rowChildren.count (chartKey cid) ∧
    (keysOf (buildPositionJson name ids).leaves).count (chartKey cid) = 1 := by
  constructor
  · have h1 : (buildPositionJson name ids).rowChildren
        = (truthyIds ids).map chartKey := by
      unfold buildPositionJson
      rw [foldl_addChart_rowChildren]
      rfl
    rw [h1]
    have h2 := count_le_count_map (truthyIds ids) chartKey cid
    have h3 := count_truthyIds ids cid hz
    omega
  · have hnodup : (keysOf (buildPositionJson name ids).leaves).Nodup := by
      unfold buildPositionJson
      exact foldl_addChart_keys_nodup ids (initPosition name) (by simp [initPosition, keysOf])
    have hmemids : some cid ∈ ids := by
      have : 0 < ids.count (some cid) := by omega
      exact List.count_pos_iff.mp this
    have hmem : chartKey cid ∈ keysOf (buildPositionJson name ids).leaves := by
      unfold buildPositionJson
      exact foldl_addChart_keys_of_mem ids (initPosition name) cid hz hmemids
    exact List.count_eq_one_of_mem hnodup hmem

/-- C9 witness: the duplicate-id disagreement at the concrete input
[5, 5]. -/
theorem c9_duplicate_chart_ids_witness :
    2 ≤ (buildPositionJson "D" [some 5, some 5]).rowChildren.count (chartKey 5) ∧
    (keysOf (buildPositionJson "D" [some 5, some 5]).leaves).count (chartKey 5) = 1 :=
  c9_duplicate_chart_ids "D" [some 5, some 5] 5 (by decide) (by decide)

/-- C9 counterexample: for the non-null chart id 0 occurring twice, the row's
children list contains the key CHART-0 zero times — not the k = 2 times the
claim predicts — and no leaf exists at all, because Python `if chart_id:`
skips the falsy id 0. -/
theorem c9_zero_id_cex :
    (buildPositionJson "D" [some 0, some 0]).rowChildren.count "CHART-0" = 0 ∧
    (buildPositionJson "D" [some 0, some 0]).leaves = [] := by
  decide

/-! ## Concrete panel template for the substitution example -/

/-- The prefix of the example query expression, up to the placeholder. -/
def seg1 : String := "rate(x\x7bservice=\""

/-- The suffix of the example query expression, after the placeholder. -/
def seg2 : String := "\"\x7d[5m])"

/-- The example query expression containing the service placeholder. -/
def exprRateTemplate : String := "rate(x\x7bservice=\"$\x7bSERVICE\x7d\"\x7d[5m])"

/-- A panel template with one query carrying the example expression. -/
def redRateTemplate : PanelTemplate :=
  { id := 1, title := "Request Rate", ptype := "timeseries", gridPos := "grid-0-0"
    description := none, fieldConfig := none, options := none
    transformations := none
    queries := [{ refId := "A", expr := exprRateTemplate, legendFormat := none
                  format := none, instant := none }] }

/-- A panel template with no query definitions (a purely static panel). -/
def emptyPanelTemplate : PanelTemplate :=
  { id := 2, title := "Notes", ptype := "text", gridPos := "grid-0-1"
    description := none, fieldConfig := none, options := none
    transformations := none, queries := [] }

/-- C8: panel expansion replaces every occurrence of the service placeholder
in a query expression and alters no other character — for any expression
interleaving the placeholder between placeholder-free segments the expansion
is exactly the same interleaving with the service name substituted; the
claim's concrete example expands to exactly the expected literal; and
expansion is total: a template with zero query definitions yields a panel
with an empty target list. -/
theorem c8_placeholder_substitution :
    (∀ (ss : List (List Char)) (rep : List Char), (∀ l ∈ ss, '$' ∉ l) →
        replaceAll (interpose placeholder.data ss) placeholder.data rep
          = interpose rep ss) ∧
    ((buildPanel redRateTemplate "picking-api" "prometheus-uid").targets.map
        Target.expr = ["rate(x\x7bservice=\"picking-api\"\x7d[5m])"]) ∧
    (∀ (pt : PanelTemplate) (service uid : String), pt.queries = [] →
        (buildPanel pt service uid).targets = []) := by
  refine ⟨?_, ?_, ?_⟩
  · intro ss rep h
    have hd : placeholder.data = '$' :: "\x7bSERVICE\x7d".data := rfl
    rw [hd]
    exact replaceAll_interpose '$' _ rep ss h
  · decide
  · intro pt service uid h
    simp [buildPanel, h]

/-- C8 witness: the interleaving equation applied at the example segments and
service name, and totality applied at the static template. -/
theorem c8_placeholder_substitution_witness :
    (replaceAll (interpose placeholder.data [seg1.data, seg2.data])
        placeholder.data "picking-api".data
      = interpose "picking-api".data [seg1.data, seg2.data]) ∧
    (buildPanel emptyPanelTemplate "picking-api" "prometheus-uid").targets = [] :=
  ⟨c8_placeholder_substitution.1 [seg1.data, seg2.data] "picking-api".data
      (by decide),
   c8_placeholder_substitution.2.2 emptyPanelTemplate "picking-api"
      "prometheus-uid" rfl⟩

/-! ## The red-metrics error handling and tally -/

theorem length_filter_split (l : List String) (p : String → Bool) :
    (l.filter p).length + (l.filter (fun a => !p a)).length = l.length := by
  induction l with
  | nil => simp
  | cons a rest ih =>
    by_cases h : p a <;> simp [List.filter_cons, h] <;> omega

/-- C10: the request wrapper converts every HTTP error response into a
returned dictionary carrying an "error" and a "status" key instead of a
raised exception; consequently, for every list of services (against a backend
whose 2xx dashboard-creation responses carry status "success"), each
failed per-service POST increments the failure tally while the loop proceeds
through all services, and the process exit code is 0 exactly when no
per-service POST failed. -/
theorem c10_error_dict_and_tally :
    (∀ (code : Nat) (body : String),
        lookupG (grafanaRequest (.httpError code body)) "error"
          = some (.str body) ∧
        lookupG (grafanaRequest (.httpError code body)) "status"
          = some (.num code)) ∧
    (∀ (services : List String) (respond : String → GResp),
        (∀ svc fields, respond svc = .ok fields →
            lookupG fields "status" = some (.str "success")) →
        (runRed services respond).succ + (runRed services respond).fail
            = services.length ∧
        (runRed services respond).fail
            = (services.filter (fun svc => isErrorResp (respond svc))).length ∧
        ((runRed services respond).exit = 0 ↔
            (services.filter (fun svc => isErrorResp (respond svc))).length = 0)) := by
  constructor
  · intro code body
    exact ⟨rfl, rfl⟩
  · intro services respond hok
    have hpt : ∀ svc, okSvc respond svc = !isErrorResp (respond svc) := by
      intro svc
      cases hr : respond svc with
      | httpError code body =>
        simp [okSvc, grafanaRequest, isErrorResp, lookupG, hr]
      | ok fields =>
        simp [okSvc, grafanaRequest, isErrorResp, hr, hok svc fields hr]
    have hfilters : services.filter (fun svc => !okSvc respond svc)
        = services.filter (fun svc => isErrorResp (respond svc)) := by
      apply List.filter_congr
      intro svc _
      rw [hpt svc]
      simp
    have hfold := foldl_redStep respond services (0, 0)
    refine ⟨?_, ?_, ?_⟩
    · show (services.foldl (redStep respond) (0, 0)).1
          + (services.foldl (redStep respond) (0, 0)).2 = services.length
      rw [hfold]
      simp only [Nat.zero_add]
      rw [hfilters]
      rw [← length_filter_split services (okSvc respond), hfilters]
    · show (services.foldl (redStep respond) (0, 0)).2
          = (services.filter (fun svc => isErrorResp (respond svc))).length
      rw [hfold]
      simp only [Nat.zero_add]
      rw [hfilters]
    · show (if (services.foldl (redStep respond) (0, 0)).2 = 0 then 0 else 1) = 0 ↔
          (services.filter (fun svc => isErrorResp (respond svc))).length = 0
      rw [hfold]
      simp only [Nat.zero_add]
      rw [hfilters]
      by_cases h : (services.filter (fun svc => isErrorResp (respond svc))).length = 0
      · simp [h]
      · simp [h]

/-- A concrete Grafana backend: the picking-api POST succeeds, every other
service's POST fails with an HTTP 500. -/
def respondW : String → GResp := fun svc =>
  if svc = "picking-api"
  then .ok [("status", .str "success"), ("uid", .str "abc")]
  else .httpError 500 "backend unavailable"

/-- C10 witness: the tally and exit-code property applied to two services
against the concrete backend `respondW`. -/
theorem c10_error_dict_and_tally_witness :
    (runRed ["picking-api", "packing-api"] respondW).succ
        + (runRed ["picking-api", "packing-api"] respondW).fail = 2 ∧
    (runRed ["picking-api", "packing-api"] respondW).fail
        = (["picking-api", "packing-api"].filter
            (fun svc => isErrorResp (respondW svc))).length ∧
    ((runRed ["picking-api", "packing-api"] respondW).exit = 0 ↔
        (["picking-api", "packing-api"].filter
            (fun svc => isErrorResp (respondW svc))).length = 0) := by
  have hok : ∀ svc fields, respondW svc = .ok fields →
      lookupG fields "status" = some (.str "success") := by
    intro svc fields hr
    unfold respondW at hr
    by_cases hs : svc = "picking-api"
    · rw [if_pos hs] at hr
      cases hr
      rfl
    · rw [if_neg hs] at hr
      cases hr
  exact c10_error_dict_and_tally.2 ["picking-api", "packing-api"] respondW hok

end WmsProvision
